import Mathlib

/-
  Verification of the `PypiProxy` wrapper
  (src/v1/nix/pkgs/fetchPipMetadata/src/fetch_pip_metadata/pypi_proxy.py).

  The Python class launches a mitmproxy subprocess on a freshly allocated
  ephemeral port, polls it for readiness through a proxied HTTP request,
  merges the proxy's CA certificate with the certifi trust store into a
  single bundle file, and exposes a `kill` method.

  The embedding below models:
  - the environment mapping and the filesystem as association lists
    (path / variable name → content), with truncate-open and append
    operations mirroring Python's `open(path, "w")` followed by
    sequential `f.write` calls;
  - Python exceptions (`KeyError`, `FileNotFoundError`,
    `urllib.error.URLError`) as an explicit error type threaded through
    `Except`;
  - the readiness poll `wait` as a clock-indexed loop: the test
    endpoint's behavior is a function from attempt number to
    `Option Nat` (`some status` when `urlopen` returns a response or
    raises `HTTPError` with that status — both reduce to a status
    comparison since `HTTPError < 400` never occurs and `HTTPError` is a
    subclass of the caught `URLError` — and `none` when the connection
    fails with `URLError`); each iteration advances the clock by the
    request's duration plus the fixed `time.sleep(1)` executed in the
    `finally` block;
  - `subprocess.Popen` and `Popen.kill` by a process record carrying the
    argument vector, a running flag and the list of signals sent;
    `Popen.kill` sends SIGKILL immediately and, per the documented
    subprocess semantics, never fails even on an already-dead child.
-/

namespace PypiProxyModel

/-- Python exceptions that the wrapped code can raise: connection errors
from `urllib` (`URLError`, which also covers its subclass `HTTPError`),
missing files (`FileNotFoundError` with the offending path) and missing
dictionary keys (`KeyError` with the key). -/
inductive PyErr where
  | urlError : PyErr
  | fileNotFoundError : String → PyErr
  | keyError : String → PyErr
deriving DecidableEq, Repr

/-- An environment mapping, as passed to the constructor (`env`). -/
abbrev Env := List (String × String)

/-- Dictionary lookup `env[k]`: raises `KeyError k` when absent. -/
def envGet (env : Env) (k : String) : Except PyErr String :=
  match env.find? (fun p => p.1 == k) with
  | some p => .ok p.2
  | none => .error (.keyError k)

/-- The filesystem: an association from path to current file content;
the first binding for a path is its content. -/
abbrev FS := List (String × String)

/-- Content of the file at `p`, if it exists. -/
def fsLookup (fs : FS) (p : String) : Option String :=
  (fs.find? (fun q => q.1 == p)).map (fun q => q.2)

/-- Model of `open(p, "r")` followed by `f.read()`: the whole content,
or `FileNotFoundError` when the path is absent. -/
def fsRead (fs : FS) (p : String) : Except PyErr String :=
  match fsLookup fs p with
  | some s => .ok s
  | none => .error (.fileNotFoundError p)

/-- Replace (or create) the binding of path `p` with content `s`. -/
def fsWrite (fs : FS) (p s : String) : FS := (p, s) :: fs

/-- Model of `open(p, "w")`: truncates the file to empty content. -/
def fsOpenTrunc (fs : FS) (p : String) : FS := fsWrite fs p ""

/-- Model of `f.write(s)` on a file opened for writing: appends `s` to
the current content. -/
def fsAppend (fs : FS) (p s : String) : FS :=
  fsWrite fs p ((fsLookup fs p).getD "" ++ s)

/-- A path is absolute when it starts with the separator, following
`pathlib.PurePosixPath.is_absolute`. -/
def isAbsolute (p : String) : Bool :=
  p.data.head? == some '/'

/-- Whether the path's textual form ends in a separator. -/
def endsWithSep (p : String) : Bool :=
  p.data.getLast? == some '/'

/-- Model of `pathlib`'s `/` operator on POSIX paths: an absolute right
operand replaces the left one; otherwise the two are joined with a
single separator. -/
def pathJoin (a b : String) : String :=
  if isAbsolute b then b
  else if a.data = [] then b
  else if endsWithSep a then a ++ b
  else a ++ "/" ++ b

/-- The fixed relative location of mitmproxy's CA certificate under the
home directory, from the literal in `generate_ca_bundle`. -/
def mitmCertRel : String := ".mitmproxy/mitmproxy-ca-cert.pem"

/-- Embedding of `PypiProxy.generate_ca_bundle(self, path)`.
`certifiWhere` stands for the path returned by `certifi.where()`.
Returns the value `generate_ca_bundle` returns (or the exception it
raises) together with the filesystem after the call; on an exception the
filesystem is the one at the point the exception was raised. -/
def generate_ca_bundle (env : Env) (certifiWhere : String) (fs : FS)
    (path : String) : Except PyErr String × FS :=
  match envGet env "HOME" with
  | .error e => (.error e, fs)
  | .ok home =>
    let outPath := pathJoin home path
    match fsRead fs (pathJoin home mitmCertRel) with
    | .error e => (.error e, fs)
    | .ok mitmproxy_cacert =>
      match fsRead fs certifiWhere with
      | .error e => (.error e, fs)
      | .ok certifi_cacert =>
        let fs1 := fsOpenTrunc fs outPath
        let fs2 := fsAppend fs1 outPath mitmproxy_cacert
        let fs3 := fsAppend fs2 outPath "\n"
        let fs4 := fsAppend fs3 outPath certifi_cacert
        (.ok outPath, fs4)

/-- Behavior of `urllib.request.urlopen` on the proxied test request at
a given attempt index: a status code, or `URLError` when the connection
fails. -/
def urlopen (endpoint : Nat → Option Nat) (k : Nat) : Except PyErr Nat :=
  match endpoint k with
  | some status => .ok status
  | none => .error .urlError

/-- Outcome of one iteration of the body of `PypiProxy.wait`'s loop:
leave the loop (`break`), go around again, or propagate an exception. -/
inductive BodyOut where
  | brk : BodyOut
  | cont : BodyOut
  | raiseErr : PyErr → BodyOut
deriving DecidableEq, Repr

/-- One execution of the `try/except` part of the loop body of
`PypiProxy.wait`: `urlopen` is attempted; a status below 400 breaks the
loop, `urllib.error.URLError` is swallowed (`pass`), anything else
propagates. The `finally: time.sleep(1)` is accounted for by the caller,
which advances the clock on every outcome. -/
def waitBody (endpoint : Nat → Option Nat) (k : Nat) : BodyOut :=
  match urlopen endpoint k with
  | .ok status => if status < 400 then .brk else .cont
  | .error .urlError => .cont
  | .error e => .raiseErr e

/-- Embedding of the `while time.time() < timeout` loop of
`PypiProxy.wait`. `dur k` is the wall-clock time consumed by attempt
`k`'s request; each iteration additionally sleeps one unit (the
`finally` block, which also runs before a `break` takes effect). Returns
`some k` when attempt `k` succeeded, `none` on budget exhaustion, paired
with the clock at return. -/
def waitFrom (endpoint : Nat → Option Nat) (dur : Nat → Nat)
    (deadline clock k : Nat) : Except PyErr (Option Nat × Nat) :=
  if _h : clock < deadline then
    match waitBody endpoint k with
    | .brk => .ok (some k, clock + dur k + 1)
    | .cont => waitFrom endpoint dur deadline (clock + dur k + 1) (k + 1)
    | .raiseErr e => .error e
  else .ok (none, clock)
termination_by deadline - clock
decreasing_by omega

/-- Embedding of `PypiProxy.wait(self, test_url, timeout)`: the deadline
is the clock at entry plus the timeout budget. -/
def wait (endpoint : Nat → Option Nat) (dur : Nat → Nat)
    (clock timeout : Nat) : Except PyErr (Option Nat × Nat) :=
  waitFrom endpoint dur (clock + timeout) clock 0

/-- A child process as created by `subprocess.Popen`: the argument
vector and environment it was spawned with, whether it is still
running, and the signals sent to it so far (most recent last). -/
structure Proc where
  argv : List String
  procEnv : Env
  running : Bool
  signalsSent : List Nat
deriving DecidableEq, Repr

/-- Model of `subprocess.Popen(argv, stdout=sys.stderr,
stderr=sys.stderr, env=env)`: a fresh running process with no signals
sent. -/
def Popen (argv : List String) (env : Env) : Proc :=
  { argv := argv, procEnv := env, running := true, signalsSent := [] }

/-- Model of `Popen.kill()`: sends SIGKILL (signal 9) immediately,
without waiting for the child to exit. Per the `subprocess`
documentation this never raises, in particular not when the child has
already exited, so the result is always `.ok`. -/
def Proc.kill (p : Proc) : Except PyErr Proc :=
  .ok { p with running := false, signalsSent := p.signalsSent ++ [9] }

/-- The handle a successful constructor call returns: the attributes
`env`, `port`, `proc` and `cafile` set by `PypiProxy.__init__`. -/
structure PypiProxy where
  env : Env
  port : Nat
  proc : Proc
  cafile : String
deriving DecidableEq, Repr

/-- Embedding of `PypiProxy.find_free_port`: bind a TCP socket to port
0, read back the port the operating system assigned (`osPort` in this
model), close the socket, and return that port. -/
def find_free_port (osPort : Nat) : Nat := osPort

/-- Embedding of `PypiProxy.kill(self)`, which runs `self.proc.kill()`. -/
def PypiProxy.killProxy (h : PypiProxy) : Except PyErr PypiProxy :=
  match h.proc.kill with
  | .ok p => .ok { h with proc := p }
  | .error e => .error e

/-- Everything observable about one run of the constructor: the spawned
child process (spawned before anything can fail, and never terminated
by the constructor itself), the outcome of the readiness poll, the
value returned or exception raised, and the filesystem afterwards. -/
structure InitResult where
  spawned : Proc
  waitResult : Except PyErr (Option Nat × Nat)
  result : Except PyErr PypiProxy
  fs : FS

/-- Embedding of `PypiProxy.__init__(self, executable, args, env)`:
allocate a port, spawn
`executable --listen-port <port> --anticache <args...>`, poll readiness
with a budget of 10 time units, then generate the CA bundle at
`.ca-cert.pem` under the home directory and record its path in
`self.cafile`. `osPort` is the port the OS assigns, `endpoint`/`dur`
describe the proxied test URL's behavior, `clock` is the start time,
`certifiWhere` the certifi bundle path, `fs` the initial filesystem. -/
def PypiProxy.init (executable : String) (args : List String) (env : Env)
    (osPort : Nat) (endpoint : Nat → Option Nat) (dur : Nat → Nat)
    (clock : Nat) (certifiWhere : String) (fs : FS) : InitResult :=
  let port := find_free_port osPort
  let proc := Popen ([executable, "--listen-port", toString port,
    "--anticache"] ++ args) env
  let w := wait endpoint dur clock 10
  match w with
  | .error e =>
    { spawned := proc, waitResult := w, result := .error e, fs := fs }
  | .ok _ =>
    match generate_ca_bundle env certifiWhere fs ".ca-cert.pem" with
    | (.error e, fs4) =>
      { spawned := proc, waitResult := w, result := .error e, fs := fs4 }
    | (.ok cafile, fs4) =>
      { spawned := proc, waitResult := w,
        result := .ok { env := env, port := port, proc := proc,
                        cafile := cafile },
        fs := fs4 }

/-! Helper lemmas about the embedded operations. -/

/-- Appending to a string on the left by the empty string is the
identity. -/
theorem string_empty_append (a : String) : "" ++ a = a := by
  obtain ⟨la⟩ := a
  rfl

/-- The character list of an appended string is the appended character
lists. -/
theorem string_data_append (a b : String) :
    (a ++ b).data = a.data ++ b.data := by
  obtain ⟨la⟩ := a
  obtain ⟨lb⟩ := b
  rfl

/-- Appending on the right does not change whether a non-empty path is
absolute. -/
theorem isAbsolute_append (a b : String) (ha : a.data ≠ []) :
    isAbsolute (a ++ b) = isAbsolute a := by
  obtain ⟨la⟩ := a
  obtain ⟨lb⟩ := b
  cases la with
  | nil => exact absurd rfl ha
  | cons c cs => rfl

/-- Joining a relative name onto a base path yields an absolute path
exactly when the base is absolute. -/
theorem isAbsolute_pathJoin (a b : String) (hb : isAbsolute b = false) :
    isAbsolute (pathJoin a b) = isAbsolute a := by
  by_cases ha : a.data = []
  · have hA : isAbsolute a = false := by simp [isAbsolute, ha]
    rw [show pathJoin a b = b by simp [pathJoin, hb, ha]]
    rw [hb, hA]
  · by_cases hsep : endsWithSep a
    · rw [show pathJoin a b = a ++ b by simp [pathJoin, hb, ha, hsep]]
      exact isAbsolute_append a b ha
    · rw [show pathJoin a b = a ++ "/" ++ b by simp [pathJoin, hb, ha, hsep]]
      have h2 : (a ++ "/").data ≠ [] := by
        rw [string_data_append]
        intro hc
        rcases List.append_eq_nil.mp hc with ⟨h3, _⟩
        exact ha h3
      rw [isAbsolute_append (a ++ "/") b h2, isAbsolute_append a "/" ha]

/-- Looking up a path right after writing it returns the written
content. -/
theorem fsLookup_write_self (fs : FS) (p s : String) :
    fsLookup (fsWrite fs p s) p = some s := by
  simp [fsLookup, fsWrite, List.find?_cons]

/-- Content of the output file after the truncating open and the three
sequential writes performed by `generate_ca_bundle`. -/
theorem fsFinalContent (fs : FS) (p a b : String) :
    fsLookup (fsAppend (fsAppend (fsAppend (fsOpenTrunc fs p) p a) p "\n")
      p b) p = some (a ++ "\n" ++ b) := by
  simp [fsAppend, fsOpenTrunc, fsLookup_write_self, string_empty_append]

/-- When the home variable is set and both certificate files are
readable, `generate_ca_bundle` returns the joined output path and
performs exactly the truncating open followed by the three writes. -/
theorem generate_ok (env : Env) (certifiWhere home outName a b : String)
    (fs : FS) (hhome : envGet env "HOME" = .ok home)
    (hmitm : fsLookup fs (pathJoin home mitmCertRel) = some a)
    (hcert : fsLookup fs certifiWhere = some b) :
    generate_ca_bundle env certifiWhere fs outName =
      (.ok (pathJoin home outName),
       fsAppend (fsAppend (fsAppend (fsOpenTrunc fs (pathJoin home outName))
         (pathJoin home outName) a) (pathJoin home outName) "\n")
         (pathJoin home outName) b) := by
  simp only [generate_ca_bundle, hhome, fsRead, hmitm, hcert]

/-- The loop body of `wait` never lets an exception escape: the only
exception the request can raise is `URLError`, and the `except` clause
swallows exactly that. -/
theorem waitBody_not_raise (endpoint : Nat → Option Nat) (k : Nat) :
    waitBody endpoint k = .brk ∨ waitBody endpoint k = .cont := by
  unfold waitBody urlopen
  cases endpoint k with
  | some s =>
    by_cases h : s < 400 <;> simp [h]
  | none => simp

/-- Unfolding `waitFrom` when the deadline has passed. -/
theorem waitFrom_stop (endpoint : Nat → Option Nat) (dur : Nat → Nat)
    (deadline clock k : Nat) (h : ¬ clock < deadline) :
    waitFrom endpoint dur deadline clock k = .ok (none, clock) := by
  rw [waitFrom]
  simp [h]

/-- Unfolding `waitFrom` for one iteration while the deadline has not
passed. -/
theorem waitFrom_step (endpoint : Nat → Option Nat) (dur : Nat → Nat)
    (deadline clock k : Nat) (h : clock < deadline) :
    waitFrom endpoint dur deadline clock k =
      match waitBody endpoint k with
      | .brk => .ok (some k, clock + dur k + 1)
      | .cont => waitFrom endpoint dur deadline (clock + dur k + 1) (k + 1)
      | .raiseErr e => .error e := by
  rw [waitFrom]
  simp [h]

/-- One iteration whose attempt succeeds breaks the loop, but only
after the `finally` sleep has run. -/
theorem waitFrom_brk (endpoint : Nat → Option Nat) (dur : Nat → Nat)
    (deadline clock k : Nat) (h : clock < deadline)
    (hb : waitBody endpoint k = .brk) :
    waitFrom endpoint dur deadline clock k =
      .ok (some k, clock + dur k + 1) := by
  rw [waitFrom]
  simp [h, hb]

/-- One iteration whose attempt fails (or gets a status of 400 or more)
sleeps and goes around again. -/
theorem waitFrom_cont (endpoint : Nat → Option Nat) (dur : Nat → Nat)
    (deadline clock k : Nat) (h : clock < deadline)
    (hb : waitBody endpoint k = .cont) :
    waitFrom endpoint dur deadline clock k =
      waitFrom endpoint dur deadline (clock + dur k + 1) (k + 1) := by
  rw [waitFrom]
  simp [h, hb]

/-- Fuel-indexed totality of the polling loop: it always returns `.ok`,
and when it returns `none` (no attempt succeeded) the clock has reached
the deadline. -/
theorem waitFrom_ok_aux (endpoint : Nat → Option Nat) (dur : Nat → Nat)
    (deadline : Nat) :
    ∀ n clock k, deadline - clock ≤ n →
      ∃ res fin, waitFrom endpoint dur deadline clock k = .ok (res, fin) ∧
        (res = none → deadline ≤ fin) := by
  intro n
  induction n with
  | zero =>
    intro clock k hn
    rw [waitFrom_stop _ _ _ _ _ (by omega)]
    exact ⟨none, clock, rfl, fun _ => by omega⟩
  | succ n ih =>
    intro clock k hn
    by_cases h : clock < deadline
    · rcases waitBody_not_raise endpoint k with hb | hb
      · rw [waitFrom_brk _ _ _ _ _ h hb]
        exact ⟨some k, clock + dur k + 1, rfl, fun hh => by simp at hh⟩
      · rw [waitFrom_cont _ _ _ _ _ h hb]
        exact ih (clock + dur k + 1) (k + 1) (by omega)
    · rw [waitFrom_stop _ _ _ _ _ h]
      exact ⟨none, clock, rfl, fun _ => by omega⟩

/-- The polling loop always returns `.ok`; on budget exhaustion the
returned clock is at or past the deadline. -/
theorem waitFrom_ok (endpoint : Nat → Option Nat) (dur : Nat → Nat)
    (deadline clock k : Nat) :
    ∃ res fin, waitFrom endpoint dur deadline clock k = .ok (res, fin) ∧
      (res = none → deadline ≤ fin) :=
  waitFrom_ok_aux endpoint dur deadline (deadline - clock) clock k le_rfl

/-- When every attempt fails with a connection error, the loop runs to
its deadline and returns `none` without raising. -/
theorem waitFrom_timeout_aux (endpoint : Nat → Option Nat)
    (dur : Nat → Nat) (deadline : Nat)
    (hall : ∀ j, endpoint j = none) :
    ∀ n clock k, deadline - clock ≤ n →
      ∃ fin, waitFrom endpoint dur deadline clock k = .ok (none, fin) ∧
        deadline ≤ fin := by
  intro n
  induction n with
  | zero =>
    intro clock k hn
    rw [waitFrom_stop _ _ _ _ _ (by omega)]
    exact ⟨clock, rfl, by omega⟩
  | succ n ih =>
    intro clock k hn
    by_cases h : clock < deadline
    · have hb : waitBody endpoint k = .cont := by
        simp [waitBody, urlopen, hall k]
      rw [waitFrom_cont _ _ _ _ _ h hb]
      exact ih (clock + dur k + 1) (k + 1) (by omega)
    · rw [waitFrom_stop _ _ _ _ _ h]
      exact ⟨clock, rfl, by omega⟩

/-- When attempts `k0, …, k0 + M - 1` fail with connection errors and
attempt `k0 + M` gets a status below 400 before the deadline, the loop
breaks at attempt `k0 + M`; the final clock includes one sleep unit per
attempt made, the successful one included (requests take no time in
this instantiation: `dur = 0`). -/
theorem waitFrom_succeeds (endpoint : Nat → Option Nat) (s : Nat)
    (hs400 : s < 400) (deadline : Nat) :
    ∀ (M clock k0 : Nat),
      (∀ j, j < M → endpoint (k0 + j) = none) →
      endpoint (k0 + M) = some s →
      clock + M < deadline →
      waitFrom endpoint (fun _ => 0) deadline clock k0 =
        .ok (some (k0 + M), clock + M + 1) := by
  intro M
  induction M with
  | zero =>
    intro clock k0 hnone hsome hcl
    rw [Nat.add_zero] at hsome
    have hb : waitBody endpoint k0 = .brk := by
      simp [waitBody, urlopen, hsome, hs400]
    rw [waitFrom_brk _ _ _ _ _ (by omega) hb]
    rfl
  | succ M ih =>
    intro clock k0 hnone hsome hcl
    have h0 : endpoint k0 = none := by
      have := hnone 0 (by omega)
      simpa using this
    have hb : waitBody endpoint k0 = .cont := by
      simp [waitBody, urlopen, h0]
    rw [waitFrom_cont _ _ _ _ _ (by omega) hb]
    show waitFrom endpoint (fun _ => 0) deadline (clock + 0 + 1) (k0 + 1) = _
    have hrec := ih (clock + 0 + 1) (k0 + 1)
      (fun j hj => by
        have := hnone (j + 1) (by omega)
        have he : k0 + (j + 1) = k0 + 1 + j := by omega
        rw [he] at this
        exact this)
      (by
        have he : k0 + (M + 1) = k0 + 1 + M := by omega
        rw [he] at hsome
        exact hsome)
      (by omega)
    rw [hrec]
    have e1 : k0 + 1 + M = k0 + (M + 1) := by omega
    have e2 : clock + 0 + 1 + M + 1 = clock + (M + 1) + 1 := by omega
    rw [e1, e2]

/-! Claim theorems. -/

/-- C1: for every pair of non-empty certificate texts,
`generate_ca_bundle` leaves the output file `home/<outName>` holding
exactly the proxy CA text, one newline, and the system trust-store
text; whatever content the output file held before in `fs` is replaced,
not appended to, since the file is opened truncating before the three
writes. -/
theorem pypi_C1 (env : Env) (certifiWhere home outName a b : String)
    (fs : FS)
    (hhome : envGet env "HOME" = .ok home)
    (hmitm : fsLookup fs (pathJoin home mitmCertRel) = some a)
    (hcert : fsLookup fs certifiWhere = some b)
    (_hA : a ≠ "") (_hB : b ≠ "") :
    (generate_ca_bundle env certifiWhere fs outName).1 =
      .ok (pathJoin home outName) ∧
    fsLookup (generate_ca_bundle env certifiWhere fs outName).2
      (pathJoin home outName) = some (a ++ "\n" ++ b) := by
  rw [generate_ok env certifiWhere home outName a b fs hhome hmitm hcert]
  exact ⟨rfl, fsFinalContent fs (pathJoin home outName) a b⟩

/-- Witness for C1 at a concrete environment and filesystem. -/
theorem pypi_C1_witness :
    (generate_ca_bundle [("HOME", "/root")] "/certifi.pem"
        [("/root/.mitmproxy/mitmproxy-ca-cert.pem", "MITM"),
         ("/certifi.pem", "CERTIFI")] ".ca-cert.pem").1 =
      .ok (pathJoin "/root" ".ca-cert.pem") ∧
    fsLookup (generate_ca_bundle [("HOME", "/root")] "/certifi.pem"
        [("/root/.mitmproxy/mitmproxy-ca-cert.pem", "MITM"),
         ("/certifi.pem", "CERTIFI")] ".ca-cert.pem").2
      (pathJoin "/root" ".ca-cert.pem") =
        some ("MITM" ++ "\n" ++ "CERTIFI") :=
  pypi_C1 [("HOME", "/root")] "/certifi.pem" "/root" ".ca-cert.pem"
    "MITM" "CERTIFI"
    [("/root/.mitmproxy/mitmproxy-ca-cert.pem", "MITM"),
     ("/certifi.pem", "CERTIFI")]
    rfl rfl rfl (by decide) (by decide)

/-- C2: if the proxy's CA certificate is absent at the fixed path
`home/.mitmproxy/mitmproxy-ca-cert.pem`, the constructor fails with the
`FileNotFoundError` for that path, and the filesystem — in particular
the merged-bundle output file — is left exactly as it was: the failing
read happens before the output file is opened for writing. -/
theorem pypi_C2 (executable : String) (args : List String) (env : Env)
    (osPort : Nat) (endpoint : Nat → Option Nat) (dur : Nat → Nat)
    (clock : Nat) (certifiWhere home : String) (fs : FS)
    (hhome : envGet env "HOME" = .ok home)
    (hmitm : fsLookup fs (pathJoin home mitmCertRel) = none) :
    (PypiProxy.init executable args env osPort endpoint dur clock
        certifiWhere fs).result =
      .error (.fileNotFoundError (pathJoin home mitmCertRel)) ∧
    (PypiProxy.init executable args env osPort endpoint dur clock
        certifiWhere fs).fs = fs := by
  obtain ⟨res, fin, hw, -⟩ := waitFrom_ok endpoint dur (clock + 10) clock 0
  have hwait : wait endpoint dur clock 10 = .ok (res, fin) := hw
  simp only [PypiProxy.init, hwait, generate_ca_bundle, hhome, fsRead,
    hmitm]
  exact ⟨trivial, trivial⟩

/-- Witness for C2: a filesystem with no mitmproxy CA certificate. -/
theorem pypi_C2_witness :
    (PypiProxy.init "mitmdump" [] [("HOME", "/root")] 8080
        (fun _ => none) (fun _ => 0) 0 "/certifi.pem"
        [("/certifi.pem", "CERTIFI")]).result =
      .error (.fileNotFoundError (pathJoin "/root" mitmCertRel)) ∧
    (PypiProxy.init "mitmdump" [] [("HOME", "/root")] 8080
        (fun _ => none) (fun _ => 0) 0 "/certifi.pem"
        [("/certifi.pem", "CERTIFI")]).fs =
      [("/certifi.pem", "CERTIFI")] :=
  pypi_C2 "mitmdump" [] [("HOME", "/root")] 8080 (fun _ => none)
    (fun _ => 0) 0 "/certifi.pem" "/root" [("/certifi.pem", "CERTIFI")]
    rfl rfl

/-- C3: the readiness poll never raises: for every behavior of the test
endpoint it returns `.ok`; when the endpoint first answers with a status
below 400 on the Nth attempt and N poll intervals fit into the 10-unit
budget the poll completes reporting that attempt; and when every
attempt fails with a connection error (swallowed and retried) the poll
still completes, reporting no success. -/
theorem pypi_C3 :
    (∀ (endpoint : Nat → Option Nat) (dur : Nat → Nat)
        (deadline clock k : Nat),
      ∃ r, waitFrom endpoint dur deadline clock k = .ok r) ∧
    (∀ (endpoint : Nat → Option Nat) (N clock : Nat),
      1 ≤ N → N * 1 ≤ 10 →
      (∀ j, j + 1 < N → endpoint j = none) →
      (∃ s, endpoint (N - 1) = some s ∧ s < 400) →
      ∃ fin, wait endpoint (fun _ => 0) clock 10 =
        .ok (some (N - 1), fin)) ∧
    (∀ (endpoint : Nat → Option Nat) (dur : Nat → Nat) (clock : Nat),
      (∀ j, endpoint j = none) →
      ∃ fin, wait endpoint dur clock 10 = .ok (none, fin)) := by
  refine ⟨?_, ?_, ?_⟩
  · intro endpoint dur deadline clock k
    obtain ⟨res, fin, heq, -⟩ := waitFrom_ok endpoint dur deadline clock k
    exact ⟨(res, fin), heq⟩
  · rintro endpoint N clock h1 h10 hnone ⟨s, hs, hs400⟩
    have h := waitFrom_succeeds endpoint s hs400 (clock + 10) (N - 1)
      clock 0
      (fun j hj => by simpa using hnone j (by omega))
      (by simpa using hs)
      (by omega)
    exact ⟨clock + (N - 1) + 1, by simpa [wait] using h⟩
  · intro endpoint dur clock hall
    obtain ⟨fin, heq, -⟩ := waitFrom_timeout_aux endpoint dur (clock + 10)
      hall (clock + 10) clock 0 (by omega)
    exact ⟨fin, heq⟩

/-- Witness for C3: success on the first attempt within the budget, and
an endpoint that never answers. -/
theorem pypi_C3_witness :
    (∃ r, waitFrom (fun _ => none) (fun _ => 0) 10 0 0 = .ok r) ∧
    (∃ fin, wait (fun _ => some 200) (fun _ => 0) 0 10 =
      .ok (some (1 - 1), fin)) ∧
    (∃ fin, wait (fun _ => none) (fun _ => 3) 0 10 = .ok (none, fin)) :=
  ⟨pypi_C3.1 (fun _ => none) (fun _ => 0) 10 0 0,
   pypi_C3.2.1 (fun _ => some 200) 1 0 (by omega) (by omega)
     (fun j hj => absurd hj (by omega)) ⟨200, rfl, by omega⟩,
   pypi_C3.2.2 (fun _ => none) (fun _ => 3) 0 (fun _ => rfl)⟩

/-- C4: the constructor spawns the child with the argument vector
`executable --listen-port <port> --anticache <extra args>` in exactly
that order, for every executable, extra-argument list and environment;
and when construction succeeds the handle's recorded port is the
OS-assigned port whose rendering appeared on that command line. -/
theorem pypi_C4 (executable : String) (args : List String) (env : Env)
    (osPort : Nat) (endpoint : Nat → Option Nat) (dur : Nat → Nat)
    (clock : Nat) (certifiWhere home a b : String) (fs : FS)
    (hhome : envGet env "HOME" = .ok home)
    (hmitm : fsLookup fs (pathJoin home mitmCertRel) = some a)
    (hcert : fsLookup fs certifiWhere = some b) :
    (PypiProxy.init executable args env osPort endpoint dur clock
        certifiWhere fs).spawned.argv =
      [executable, "--listen-port", toString osPort, "--anticache"]
        ++ args ∧
    ∃ h, (PypiProxy.init executable args env osPort endpoint dur clock
        certifiWhere fs).result = .ok h ∧ h.port = osPort := by
  obtain ⟨res, fin, hw, -⟩ := waitFrom_ok endpoint dur (clock + 10) clock 0
  have hwait : wait endpoint dur clock 10 = .ok (res, fin) := hw
  have hgen := generate_ok env certifiWhere home ".ca-cert.pem" a b fs
    hhome hmitm hcert
  simp only [PypiProxy.init, hwait, hgen, find_free_port, Popen]
  exact ⟨trivial, _, rfl, rfl⟩

/-- Witness for C4 at a concrete invocation. -/
theorem pypi_C4_witness :
    (PypiProxy.init "mitmdump" ["--quiet"] [("HOME", "/root")] 8080
        (fun _ => none) (fun _ => 0) 0 "/certifi.pem"
        [("/root/.mitmproxy/mitmproxy-ca-cert.pem", "MITM"),
         ("/certifi.pem", "CERTIFI")]).spawned.argv =
      ["mitmdump", "--listen-port", toString 8080, "--anticache"]
        ++ ["--quiet"] ∧
    ∃ h, (PypiProxy.init "mitmdump" ["--quiet"] [("HOME", "/root")] 8080
        (fun _ => none) (fun _ => 0) 0 "/certifi.pem"
        [("/root/.mitmproxy/mitmproxy-ca-cert.pem", "MITM"),
         ("/certifi.pem", "CERTIFI")]).result = .ok h ∧ h.port = 8080 :=
  pypi_C4 "mitmdump" ["--quiet"] [("HOME", "/root")] 8080
    (fun _ => none) (fun _ => 0) 0 "/certifi.pem" "/root" "MITM" "CERTIFI"
    [("/root/.mitmproxy/mitmproxy-ca-cert.pem", "MITM"),
     ("/certifi.pem", "CERTIFI")]
    rfl rfl rfl

/-- C5: the poll loop terminates: each iteration advances the clock by
the request duration plus the one-unit sleep, the loop always returns
control without raising, and when no attempt succeeded it exits only
once the clock has reached the 10-unit budget past the start. -/
theorem pypi_C5 (endpoint : Nat → Option Nat) (dur : Nat → Nat)
    (clock : Nat) :
    ∃ res fin, wait endpoint dur clock 10 = .ok (res, fin) ∧
      (res = none → clock + 10 ≤ fin) := by
  obtain ⟨res, fin, heq, hle⟩ := waitFrom_ok endpoint dur (clock + 10)
    clock 0
  exact ⟨res, fin, heq, hle⟩

/-- Witness for C5: an endpoint that never answers. -/
theorem pypi_C5_witness :
    ∃ res fin, wait (fun _ => none) (fun _ => 0) 0 10 = .ok (res, fin) ∧
      (res = none → 0 + 10 ≤ fin) :=
  pypi_C5 (fun _ => none) (fun _ => 0) 0

/-- C6: regardless of the readiness poll's outcome — success on some
attempt or budget exhaustion, that is, for every endpoint behavior and
request-duration profile — the constructor proceeds to generate the
merged certificate bundle, records its path in the handle's `cafile`,
and that file holds the merged content. -/
theorem pypi_C6 (executable : String) (args : List String) (env : Env)
    (osPort : Nat) (endpoint : Nat → Option Nat) (dur : Nat → Nat)
    (clock : Nat) (certifiWhere home a b : String) (fs : FS)
    (hhome : envGet env "HOME" = .ok home)
    (hmitm : fsLookup fs (pathJoin home mitmCertRel) = some a)
    (hcert : fsLookup fs certifiWhere = some b) :
    ∃ h, (PypiProxy.init executable args env osPort endpoint dur clock
        certifiWhere fs).result = .ok h ∧
      h.cafile = pathJoin home ".ca-cert.pem" ∧
      fsLookup (PypiProxy.init executable args env osPort endpoint dur
        clock certifiWhere fs).fs h.cafile = some (a ++ "\n" ++ b) := by
  obtain ⟨res, fin, hw, -⟩ := waitFrom_ok endpoint dur (clock + 10) clock 0
  have hwait : wait endpoint dur clock 10 = .ok (res, fin) := hw
  have hgen := generate_ok env certifiWhere home ".ca-cert.pem" a b fs
    hhome hmitm hcert
  simp only [PypiProxy.init, hwait, hgen]
  exact ⟨_, rfl, rfl, fsFinalContent fs (pathJoin home ".ca-cert.pem") a b⟩

/-- Witness for C6: the poll times out, the bundle is generated
anyway. -/
theorem pypi_C6_witness :
    ∃ h, (PypiProxy.init "mitmdump" [] [("HOME", "/root")] 8080
        (fun _ => none) (fun _ => 0) 0 "/certifi.pem"
        [("/root/.mitmproxy/mitmproxy-ca-cert.pem", "MITM"),
         ("/certifi.pem", "CERTIFI")]).result = .ok h ∧
      h.cafile = pathJoin "/root" ".ca-cert.pem" ∧
      fsLookup (PypiProxy.init "mitmdump" [] [("HOME", "/root")] 8080
        (fun _ => none) (fun _ => 0) 0 "/certifi.pem"
        [("/root/.mitmproxy/mitmproxy-ca-cert.pem", "MITM"),
         ("/certifi.pem", "CERTIFI")]).fs h.cafile =
        some ("MITM" ++ "\n" ++ "CERTIFI") :=
  pypi_C6 "mitmdump" [] [("HOME", "/root")] 8080 (fun _ => none)
    (fun _ => 0) 0 "/certifi.pem" "/root" "MITM" "CERTIFI"
    [("/root/.mitmproxy/mitmproxy-ca-cert.pem", "MITM"),
     ("/certifi.pem", "CERTIFI")]
    rfl rfl rfl

/-- C7: `kill` never raises: it sends the immediate non-graceful
SIGKILL without waiting for exit, and calling it again after the child
is no longer running also succeeds without error. -/
theorem pypi_C7 (h : PypiProxy) :
    ∃ h1, h.killProxy = .ok h1 ∧ h1.proc.running = false ∧
      h1.proc.signalsSent = h.proc.signalsSent ++ [9] ∧
      ∃ h2, h1.killProxy = .ok h2 ∧ h2.proc.running = false :=
  ⟨_, rfl, rfl, rfl, _, rfl, rfl⟩

/-- Witness for C7 at a concrete handle. -/
theorem pypi_C7_witness :
    ∃ h1, (PypiProxy.mk [("HOME", "/root")] 8080
        (Proc.mk ["mitmdump"] [("HOME", "/root")] true []) "/root/.ca-cert.pem").killProxy = .ok h1 ∧
      h1.proc.running = false ∧
      h1.proc.signalsSent =
        (PypiProxy.mk [("HOME", "/root")] 8080
          (Proc.mk ["mitmdump"] [("HOME", "/root")] true [])
          "/root/.ca-cert.pem").proc.signalsSent ++ [9] ∧
      ∃ h2, h1.killProxy = .ok h2 ∧ h2.proc.running = false :=
  pypi_C7 (PypiProxy.mk [("HOME", "/root")] 8080
    (Proc.mk ["mitmdump"] [("HOME", "/root")] true []) "/root/.ca-cert.pem")

/-- C8 counterexample: with the home-directory value bound to the
relative directory name "home", `generate_ca_bundle` writes and returns
the relative path "home/.ca-cert.pem", which is not absolute — so the
returned path is not absolute for every home-directory value. -/
theorem pypi_C8_counterexample :
    (generate_ca_bundle [("HOME", "home")] "/cacert.pem"
        [("home/.mitmproxy/mitmproxy-ca-cert.pem", "A"),
         ("/cacert.pem", "B")] ".ca-cert.pem").1 =
      .ok "home/.ca-cert.pem" ∧
    isAbsolute "home/.ca-cert.pem" = false :=
  ⟨rfl, rfl⟩

/-- C8 (amended): `generate_ca_bundle` returns the joined path
`home / relativeOutputPath` of the file it wrote; that path is absolute
exactly when the supplied home-directory value is absolute — with a
relative home value the returned path is relative, not absolute. -/
theorem pypi_C8_amended (env : Env)
    (certifiWhere home outName a b : String) (fs : FS)
    (hhome : envGet env "HOME" = .ok home)
    (hrel : isAbsolute outName = false)
    (hmitm : fsLookup fs (pathJoin home mitmCertRel) = some a)
    (hcert : fsLookup fs certifiWhere = some b) :
    (generate_ca_bundle env certifiWhere fs outName).1 =
      .ok (pathJoin home outName) ∧
    fsLookup (generate_ca_bundle env certifiWhere fs outName).2
      (pathJoin home outName) = some (a ++ "\n" ++ b) ∧
    isAbsolute (pathJoin home outName) = isAbsolute home := by
  rw [generate_ok env certifiWhere home outName a b fs hhome hmitm hcert]
  exact ⟨rfl, fsFinalContent fs (pathJoin home outName) a b,
    isAbsolute_pathJoin home outName hrel⟩

/-- Witness for the amended C8 at a relative home directory. -/
theorem pypi_C8_witness :
    (generate_ca_bundle [("HOME", "home")] "/cacert.pem"
        [("home/.mitmproxy/mitmproxy-ca-cert.pem", "A"),
         ("/cacert.pem", "B")] ".ca-cert.pem").1 =
      .ok (pathJoin "home" ".ca-cert.pem") ∧
    fsLookup (generate_ca_bundle [("HOME", "home")] "/cacert.pem"
        [("home/.mitmproxy/mitmproxy-ca-cert.pem", "A"),
         ("/cacert.pem", "B")] ".ca-cert.pem").2
      (pathJoin "home" ".ca-cert.pem") = some ("A" ++ "\n" ++ "B") ∧
    isAbsolute (pathJoin "home" ".ca-cert.pem") = isAbsolute "home" :=
  pypi_C8_amended [("HOME", "home")] "/cacert.pem" "home" ".ca-cert.pem"
    "A" "B"
    [("home/.mitmproxy/mitmproxy-ca-cert.pem", "A"), ("/cacert.pem", "B")]
    rfl rfl rfl rfl

/-- C9: the one-unit sleep in the `finally` block runs after every
attempt, the successful final one included: when the first success is
attempt `M` (answered at clock `clock + M`, requests taking no time),
`wait` returns at clock `clock + M + 1` — one more sleep interval
elapses after the success, because the sleep runs before the `break`
takes effect. -/
theorem pypi_C9 (endpoint : Nat → Option Nat) (s M clock : Nat)
    (hs400 : s < 400) (hnone : ∀ j, j < M → endpoint j = none)
    (hsome : endpoint M = some s) (hM : M < 10) :
    wait endpoint (fun _ => 0) clock 10 = .ok (some M, clock + M + 1) := by
  have h := waitFrom_succeeds endpoint s hs400 (clock + 10) M clock 0
    (fun j hj => by simpa using hnone j hj)
    (by simpa using hsome)
    (by omega)
  simpa [wait] using h

/-- Witness for C9: success on the second attempt at start clock 5; the
loop returns at clock 7, not 6. -/
theorem pypi_C9_witness :
    wait (fun k => if k = 0 then none else some 200) (fun _ => 0) 5 10 =
      .ok (some 1, 5 + 1 + 1) :=
  pypi_C9 (fun k => if k = 0 then none else some 200) 200 1 5 (by omega)
    (fun j hj => by
      have hj0 : j = 0 := by omega
      rw [hj0]
      rfl)
    rfl (by omega)

/-- C10: when the supplied environment has no home-directory entry, the
constructor fails with `KeyError "HOME"` raised during bundle
generation: the child process has already been spawned (and stays
running — no handle is returned through which to terminate it), the
readiness poll has already completed, and no file is written. -/
theorem pypi_C10 (executable : String) (args : List String) (env : Env)
    (osPort : Nat) (endpoint : Nat → Option Nat) (dur : Nat → Nat)
    (clock : Nat) (certifiWhere : String) (fs : FS)
    (hhome : envGet env "HOME" = .error (.keyError "HOME")) :
    (PypiProxy.init executable args env osPort endpoint dur clock
        certifiWhere fs).result = .error (.keyError "HOME") ∧
    (PypiProxy.init executable args env osPort endpoint dur clock
        certifiWhere fs).spawned.running = true ∧
    (∃ w, (PypiProxy.init executable args env osPort endpoint dur clock
        certifiWhere fs).waitResult = .ok w) ∧
    (PypiProxy.init executable args env osPort endpoint dur clock
        certifiWhere fs).fs = fs := by
  obtain ⟨res, fin, hw, -⟩ := waitFrom_ok endpoint dur (clock + 10) clock 0
  have hwait : wait endpoint dur clock 10 = .ok (res, fin) := hw
  simp only [PypiProxy.init, hwait, generate_ca_bundle, hhome, Popen]
  exact ⟨trivial, trivial, ⟨(res, fin), rfl⟩, trivial⟩

/-- Witness for C10: an environment carrying only PATH. -/
theorem pypi_C10_witness :
    (PypiProxy.init "mitmdump" [] [("PATH", "/bin")] 8080
        (fun _ => none) (fun _ => 0) 0 "/certifi.pem" []).result =
      .error (.keyError "HOME") ∧
    (PypiProxy.init "mitmdump" [] [("PATH", "/bin")] 8080
        (fun _ => none) (fun _ => 0) 0 "/certifi.pem"
        []).spawned.running = true ∧
    (∃ w, (PypiProxy.init "mitmdump" [] [("PATH", "/bin")] 8080
        (fun _ => none) (fun _ => 0) 0 "/certifi.pem"
        []).waitResult = .ok w) ∧
    (PypiProxy.init "mitmdump" [] [("PATH", "/bin")] 8080
        (fun _ => none) (fun _ => 0) 0 "/certifi.pem" []).fs = [] :=
  pypi_C10 "mitmdump" [] [("PATH", "/bin")] 8080 (fun _ => none)
    (fun _ => 0) 0 "/certifi.pem" [] rfl

end PypiProxyModel
